import Mathlib

/-!
Shallow embedding of the poll server actions of `alx-polly` (the file
holding `createPoll`, `getUserPolls`, `getPollById`, `submitVote`,
`deletePoll`, `updatePoll`).  The Supabase persistence layer is modelled
as an explicit `DB` state holding the `polls` and `votes` tables; the
ambient request (CSRF cookie and form field, cookie-store availability,
resolved auth user) is an explicit `Ctx`; backend failures of individual
storage calls are injected through a `Faults` record whose fields carry
the `{ message, code }` error a given call would return, `none` meaning
the call succeeds against the modelled tables.
-/

namespace Polly

/-- A Supabase user as consumed by the actions (only `id` is used). -/
structure User where
  id : String
deriving DecidableEq, Repr

/-- A row of the `polls` table: `user_id` is the owner's identity. -/
structure Poll where
  id : String
  user_id : String
  question : String
  options : List String
  created_at : Nat
deriving DecidableEq, Repr

/-- A row of the `votes` table. -/
structure Vote where
  poll_id : String
  user_id : String
  option_index : Int
deriving DecidableEq, Repr

/-- The persistent store: the two tables touched by the actions. -/
structure DB where
  polls : List Poll
  votes : List Vote
deriving DecidableEq, Repr

/-- A Supabase/PostgREST error object: the actions read `.message` and,
in the duplicate-vote branch, `.code`. -/
structure SbError where
  message : String
  code : String
deriving DecidableEq, Repr

/-- The request-scoped context: whether `cookies()` is available (the
`try` block fails closed when it is not), the `csrfToken` cookie value,
the `csrfToken` form field, and the result of `supabase.auth.getUser()`
(`user` together with `userErr`, the error object some actions check). -/
structure Ctx where
  cookiesAvailable : Bool
  csrfCookie : Option String
  csrfField : Option String
  user : Option User
  userErr : Option SbError
deriving DecidableEq, Repr

/-- Injected storage-call failures, one field per query site; `none`
means the call succeeds against the modelled tables. -/
structure Faults where
  pollsInsertErr : Option SbError
  pollsSelectErr : Option SbError
  pollsUpdateErr : Option SbError
  pollsDeleteErr : Option SbError
  votesSelectErr : Option SbError
  votesInsertErr : Option SbError
deriving DecidableEq, Repr

/-- The all-succeed fault assignment. -/
def noFaults : Faults := ⟨none, none, none, none, none, none⟩

/-- JavaScript truthiness of a nullable string: `null`/`undefined` and
`""` are falsy. -/
def truthy : Option String → Bool
  | none => false
  | some s => s ≠ ""

/-- The error object PostgREST returns when `.single()` (or
`.maybeSingle()`) does not see exactly the expected number of rows. -/
def pgrstNoRow : SbError :=
  ⟨"JSON object requested, multiple (or no) rows returned", "PGRST116"⟩

/-- Result shape `{ error }` of the mutating actions. -/
structure ActionResult where
  error : Option String
deriving DecidableEq, Repr

/-- Result shape `{ polls, error }` of `getUserPolls`. -/
structure PollsResult where
  polls : List Poll
  error : Option String
deriving DecidableEq, Repr

/-- Result shape `{ poll, error }` of `getPollById`. -/
structure PollResult where
  poll : Option Poll
  error : Option String
deriving DecidableEq, Repr

/-- `.eq('id', pollId)`: the rows the poll-by-id query matches. -/
def selectById (polls : List Poll) (pollId : String) : List Poll :=
  polls.filter (fun p => decide (p.id = pollId))

/-- `.eq('id', pollId).eq('user_id', uid)`: the rows an owner-scoped
poll query matches. -/
def selectOwned (polls : List Poll) (pollId uid : String) : List Poll :=
  polls.filter (fun p => decide (p.id = pollId ∧ p.user_id = uid))

/-- `.eq('user_id', uid)`: the rows the list-my-polls query matches. -/
def selectMine (polls : List Poll) (uid : String) : List Poll :=
  polls.filter (fun p => decide (p.user_id = uid))

/-- `.eq('poll_id', pollId).eq('user_id', uid)`: the rows the
duplicate-vote query matches. -/
def selectVotes (votes : List Vote) (pollId uid : String) : List Vote :=
  votes.filter (fun v => decide (v.poll_id = pollId ∧ v.user_id = uid))

/-- `update({question, options}).eq('id', pollId).eq('user_id', uid)`:
rewrite exactly the matching rows. -/
def updateRows (polls : List Poll) (pollId uid : String) (q : String)
    (opts : List String) : List Poll :=
  polls.map (fun p =>
    if p.id = pollId ∧ p.user_id = uid then
      ⟨p.id, p.user_id, q, opts, p.created_at⟩
    else p)

/-- `delete().eq('id', pollId).eq('user_id', uid)`: drop exactly the
matching rows. -/
def deleteRows (polls : List Poll) (pollId uid : String) : List Poll :=
  polls.filter (fun p => !decide (p.id = pollId ∧ p.user_id = uid))

/-- The CSRF double-submit check shared verbatim by `createPoll` and
`updatePoll`: when the cookie store throws, fail closed with
`'CSRF validation failed.'`; when the cookie or the field is absent or
empty, or the two differ, return `'Invalid CSRF token.'`; otherwise pass. -/
def csrfCheck (ctx : Ctx) : Option String :=
  if !ctx.cookiesAvailable then some "CSRF validation failed."
  else if !truthy ctx.csrfCookie || !truthy ctx.csrfField
      || ctx.csrfCookie ≠ ctx.csrfField then
    some "Invalid CSRF token."
  else none

/-- `createPoll(formData)`: CSRF check, then parse `question` and
`options` (with `.filter(Boolean)` dropping empty entries), validate,
resolve the user (checking `userError` first), and insert the new poll.
`newId`/`now` stand for the id and `created_at` the store assigns. -/
def createPoll (ctx : Ctx) (f : Faults) (db : DB) (newId : String) (now : Nat)
    (question : Option String) (rawOptions : List String) :
    ActionResult × DB :=
  match csrfCheck ctx with
  | some e => (⟨some e⟩, db)
  | none =>
    let options := rawOptions.filter (fun s => s ≠ "")
    if !truthy question || options.length < 2 then
      (⟨some "Please provide a question and at least two options."⟩, db)
    else
      match ctx.userErr with
      | some ue => (⟨some ue.message⟩, db)
      | none =>
        match ctx.user with
        | none => (⟨some "You must be logged in to create a poll."⟩, db)
        | some u =>
          match f.pollsInsertErr with
          | some e => (⟨some e.message⟩, db)
          | none =>
            (⟨none⟩,
             ⟨db.polls ++ [⟨newId, u.id, question.getD "", options, now⟩],
              db.votes⟩)

/-- The ordering requested by `order('created_at', { ascending: false })`:
`a` comes no later than `b` when `a`'s creation time is at least `b`'s. -/
def createdDescRel (a b : Poll) : Prop := b.created_at ≤ a.created_at

instance : DecidableRel createdDescRel := fun _ _ => Nat.decLe _ _

instance : IsTotal Poll createdDescRel := ⟨fun _ _ => Nat.le_total _ _⟩

instance : IsTrans Poll createdDescRel := ⟨fun _ _ _ h1 h2 => Nat.le_trans h2 h1⟩

/-- `order('created_at', { ascending: false })`: a stable sort placing
larger `created_at` first. -/
def sortDesc (l : List Poll) : List Poll := List.insertionSort createdDescRel l

/-- `getUserPolls()`: require a user (else `{ polls: [], error: "Not
authenticated" }`), then select the caller's polls ordered by
`created_at` descending. -/
def getUserPolls (ctx : Ctx) (f : Faults) (db : DB) : PollsResult :=
  match ctx.user with
  | none => ⟨[], some "Not authenticated"⟩
  | some u =>
    match f.pollsSelectErr with
    | some e => ⟨[], some e.message⟩
    | none =>
      ⟨sortDesc (selectMine db.polls u.id), none⟩

/-- `getPollById(id)`: require a user, then
`select('*').eq('id', id).eq('user_id', user.id).single()`; `.single()`
errors (code PGRST116) unless exactly one row matches. -/
def getPollById (ctx : Ctx) (f : Faults) (db : DB) (id : String) :
    PollResult :=
  match ctx.user with
  | none => ⟨none, some "Not authenticated"⟩
  | some u =>
    match f.pollsSelectErr with
    | some e => ⟨none, some e.message⟩
    | none =>
      match selectOwned db.polls id u.id with
      | [p] => ⟨some p, none⟩
      | _ => ⟨none, some pgrstNoRow.message⟩

/-- The `.maybeSingle()` duplicate-vote lookup: `(existing, error)`.
Zero rows yield `(none, none)`, one row yields the row, several rows
yield the PGRST116 error object with no row. -/
def maybeSingleVote (rows : List Vote) : Option Vote × Option SbError :=
  match rows with
  | [] => (none, none)
  | [v] => (some v, none)
  | _ => (none, some pgrstNoRow)

/-- `submitVote(pollId, optionIndex)`: require login; fetch the poll's
options via `.single()`; bounds-check `optionIndex`; look up an existing
`(poll_id, user_id)` vote with `.maybeSingle()`, ignoring an error whose
code is `'PGRST116'` and aborting on any other; reject duplicates; then
insert the vote. -/
def submitVote (ctx : Ctx) (f : Faults) (db : DB)
    (pollId : String) (optionIndex : Int) : ActionResult × DB :=
  match ctx.user with
  | none => (⟨some "You must be logged in to vote."⟩, db)
  | some u =>
    match f.pollsSelectErr with
    | some e => (⟨some e.message⟩, db)
    | none =>
      match selectById db.polls pollId with
      | [poll] =>
        if optionIndex < 0 ∨ optionIndex ≥ poll.options.length then
          (⟨some "Invalid option selected."⟩, db)
        else
          let lookup :=
            match f.votesSelectErr with
            | some e => ((none : Option Vote), some e)
            | none =>
              maybeSingleVote (selectVotes db.votes pollId u.id)
          match lookup.2 with
          | some e =>
            if e.code ≠ "PGRST116" then (⟨some e.message⟩, db)
            else
              match f.votesInsertErr with
              | some ie => (⟨some ie.message⟩, db)
              | none =>
                (⟨none⟩, ⟨db.polls, db.votes ++ [⟨pollId, u.id, optionIndex⟩]⟩)
          | none =>
            match lookup.1 with
            | some _ => (⟨some "You have already voted on this poll."⟩, db)
            | none =>
              match f.votesInsertErr with
              | some ie => (⟨some ie.message⟩, db)
              | none =>
                (⟨none⟩, ⟨db.polls, db.votes ++ [⟨pollId, u.id, optionIndex⟩]⟩)
      | _ => (⟨some pgrstNoRow.message⟩, db)

/-- `deletePoll(id)`: require a user, then
`delete().eq('id', id).eq('user_id', user.id)`; no CSRF check appears in
the source, and a zero-row delete is not an error. -/
def deletePoll (ctx : Ctx) (f : Faults) (db : DB) (id : String) :
    ActionResult × DB :=
  match ctx.user with
  | none => (⟨some "Not authenticated"⟩, db)
  | some u =>
    match f.pollsDeleteErr with
    | some e => (⟨some e.message⟩, db)
    | none =>
      (⟨none⟩, ⟨deleteRows db.polls id u.id, db.votes⟩)

/-- `updatePoll(pollId, formData)`: CSRF check, parse and validate like
`createPoll`, resolve the user, then
`update({question, options}).eq('id', pollId).eq('user_id', user.id)`;
a zero-row update is not an error. -/
def updatePoll (ctx : Ctx) (f : Faults) (db : DB) (pollId : String)
    (question : Option String) (rawOptions : List String) :
    ActionResult × DB :=
  match csrfCheck ctx with
  | some e => (⟨some e⟩, db)
  | none =>
    let options := rawOptions.filter (fun s => s ≠ "")
    if !truthy question || options.length < 2 then
      (⟨some "Please provide a question and at least two options."⟩, db)
    else
      match ctx.userErr with
      | some ue => (⟨some ue.message⟩, db)
      | none =>
        match ctx.user with
        | none => (⟨some "You must be logged in to update a poll."⟩, db)
        | some u =>
          match f.pollsUpdateErr with
          | some e => (⟨some e.message⟩, db)
          | none =>
            (⟨none⟩,
             ⟨updateRows db.polls pollId u.id (question.getD "") options,
              db.votes⟩)

/-- The two messages the shared CSRF guard can produce. -/
def isCsrfError (e : Option String) : Prop :=
  e = some "Invalid CSRF token." ∨ e = some "CSRF validation failed."


/-! ### Helper lemmas about the CSRF guard -/

/-- Whatever message a failing CSRF guard produces is one of the two
CSRF-failure messages. -/
lemma csrfCheck_isCsrfError (ctx : Ctx) (m : String)
    (h : csrfCheck ctx = some m) : isCsrfError (some m) := by
  unfold csrfCheck at h
  split at h
  · injection h with h
    exact Or.inr (by rw [h])
  · split at h
    · injection h with h
      exact Or.inl (by rw [h])
    · exact absurd h (by simp)

/-- The CSRF guard passes exactly when the cookie store is available,
both token copies are present and non-empty, and they are equal. -/
lemma csrfCheck_eq_none_iff (ctx : Ctx) :
    csrfCheck ctx = none ↔
      ctx.cookiesAvailable = true ∧ truthy ctx.csrfCookie = true ∧
      truthy ctx.csrfField = true ∧ ctx.csrfCookie = ctx.csrfField := by
  rcases ctx with ⟨ca, cc, cf, cu, ce⟩
  cases ca <;> simp [csrfCheck] <;> tauto

/-! ### C1: CSRF fail-closed on mutating operations -/

/-- C1 (counterexample): `deletePoll` performs no CSRF check.  With the
`csrfToken` cookie and the payload field both absent, an authenticated
owner's `deletePoll` call still deletes the poll and reports success
(`error = null`) instead of a CSRF validation failure. -/
theorem C1_counterexample :
    deletePoll ⟨true, none, none, some ⟨"U1"⟩, none⟩ noFaults
        ⟨[⟨"P1", "U1", "q", ["a", "b"], 0⟩], []⟩ "P1" =
      (⟨none⟩, ⟨[], []⟩) := rfl

/-- C1 (amended): `createPoll` and `updatePoll` fail closed — whenever
the `csrfToken` cookie copy or the payload copy is missing or empty, or
the two are unequal, both operations return a CSRF failure message and
leave the store untouched, for every user, input, and backend fault
(so the token check precedes all authorization and storage work);
`deletePoll` performs no CSRF check at all (see `C1_counterexample`). -/
theorem C1_amended (ctx : Ctx) (f : Faults) (db : DB) (newId : String)
    (now : Nat) (q : Option String) (opts : List String) (pollId : String)
    (h : ¬(truthy ctx.csrfCookie = true ∧ truthy ctx.csrfField = true ∧
           ctx.csrfCookie = ctx.csrfField)) :
    isCsrfError (createPoll ctx f db newId now q opts).1.error ∧
    (createPoll ctx f db newId now q opts).2 = db ∧
    isCsrfError (updatePoll ctx f db pollId q opts).1.error ∧
    (updatePoll ctx f db pollId q opts).2 = db := by
  have hne : csrfCheck ctx ≠ none := by
    rw [Ne, csrfCheck_eq_none_iff]
    tauto
  obtain ⟨m, hm⟩ : ∃ m, csrfCheck ctx = some m := by
    cases hcc : csrfCheck ctx with
    | none => exact absurd hcc hne
    | some m => exact ⟨m, rfl⟩
  have hcsrf := csrfCheck_isCsrfError ctx m hm
  refine ⟨?_, ?_, ?_, ?_⟩ <;> simp [createPoll, updatePoll, hm, hcsrf]

/-- Witness for `C1_amended` at a concrete mismatched-token request. -/
theorem C1_witness :
    isCsrfError (createPoll ⟨true, some "t", none, some ⟨"U1"⟩, none⟩ noFaults
        ⟨[], []⟩ "P1" 0 (some "q") ["a", "b"]).1.error ∧
    (createPoll ⟨true, some "t", none, some ⟨"U1"⟩, none⟩ noFaults
        ⟨[], []⟩ "P1" 0 (some "q") ["a", "b"]).2 = ⟨[], []⟩ ∧
    isCsrfError (updatePoll ⟨true, some "t", none, some ⟨"U1"⟩, none⟩ noFaults
        ⟨[], []⟩ "P1" (some "q") ["a", "b"]).1.error ∧
    (updatePoll ⟨true, some "t", none, some ⟨"U1"⟩, none⟩ noFaults
        ⟨[], []⟩ "P1" (some "q") ["a", "b"]).2 = ⟨[], []⟩ :=
  C1_amended ⟨true, some "t", none, some ⟨"U1"⟩, none⟩ noFaults ⟨[], []⟩
    "P1" 0 (some "q") ["a", "b"] "P1" (by decide)

/-! ### Helper lemmas about owner-scoped row operations -/

/-- When no row satisfies the owner-scoped predicate, the owner-scoped
select matches nothing. -/
lemma selectOwned_eq_nil (polls : List Poll) (pollId uid : String)
    (h : ∀ p ∈ polls, ¬(p.id = pollId ∧ p.user_id = uid)) :
    selectOwned polls pollId uid = [] := by
  rw [selectOwned, List.filter_eq_nil_iff]
  intro p hp
  simpa using h p hp

/-- An owner-scoped update that matches no row rewrites nothing. -/
lemma updateRows_eq_self (polls : List Poll) (pollId uid q : String)
    (opts : List String)
    (h : ∀ p ∈ polls, ¬(p.id = pollId ∧ p.user_id = uid)) :
    updateRows polls pollId uid q opts = polls := by
  rw [updateRows]
  conv_rhs => rw [← List.map_id polls]
  refine List.map_congr_left ?_
  intro p hp
  rw [if_neg (h p hp)]
  rfl

/-- An owner-scoped delete that matches no row removes nothing. -/
lemma deleteRows_eq_self (polls : List Poll) (pollId uid : String)
    (h : ∀ p ∈ polls, ¬(p.id = pollId ∧ p.user_id = uid)) :
    deleteRows polls pollId uid = polls := by
  rw [deleteRows, List.filter_eq_self]
  intro p hp
  simp only [Bool.not_eq_true', decide_eq_false_iff_not]
  exact h p hp

/-- `getPollById` on an id that matches no row owned by the caller
(nonexistent or foreign) yields the fixed no-data, PGRST116-message
result. -/
lemma getPollById_zero_rows (ctx : Ctx) (db : DB) (u : User) (id : String)
    (hu : ctx.user = some u)
    (h : ∀ p ∈ db.polls, p.id = id → p.user_id ≠ u.id) :
    getPollById ctx noFaults db id = ⟨none, some pgrstNoRow.message⟩ := by
  have hfil : selectOwned db.polls id u.id = [] :=
    selectOwned_eq_nil _ _ _ (fun p hp hc => h p hp hc.1 hc.2)
  simp [getPollById, hu, noFaults, hfil]

/-- A `deletePoll` whose predicate matches no row reports success and
leaves the store unchanged. -/
lemma deletePoll_zero_rows (ctx : Ctx) (db : DB) (u : User) (id : String)
    (hu : ctx.user = some u)
    (h : ∀ p ∈ db.polls, ¬(p.id = id ∧ p.user_id = u.id)) :
    deletePoll ctx noFaults db id = (⟨none⟩, db) := by
  simp [deletePoll, hu, noFaults, deleteRows_eq_self _ _ _ h]

/-- An `updatePoll` whose predicate matches no row never changes the
store, whatever the request context and backend faults. -/
lemma updatePoll_zero_rows (ctx : Ctx) (f : Faults) (db : DB) (u : User)
    (pollId : String) (q : Option String) (opts : List String)
    (hu : ctx.user = some u)
    (h : ∀ p ∈ db.polls, ¬(p.id = pollId ∧ p.user_id = u.id)) :
    (updatePoll ctx f db pollId q opts).2 = db := by
  cases hcc : csrfCheck ctx with
  | some m => simp [updatePoll, hcc]
  | none =>
    simp only [updatePoll, hcc]
    split
    · rfl
    · cases hue : ctx.userErr with
      | some e => simp [hue]
      | none =>
        simp only [hue, hu]
        cases hf : f.pollsUpdateErr with
        | some e => simp [hf]
        | none =>
          simp only [hf]
          show (⟨updateRows db.polls pollId u.id _ _, db.votes⟩ : DB) = db
          rw [updateRows_eq_self _ _ _ _ _ h]

/-! ### C2: ownership isolation -/

/-- C2 (counterexample): with identity `U2` and a poll owned by `U1`,
`updatePoll` does not return a NotFound error: the zero-row update is
reported as success (`error = null`). -/
theorem C2_counterexample :
    (updatePoll ⟨true, some "t", some "t", some ⟨"U2"⟩, none⟩ noFaults
        ⟨[⟨"P1", "U1", "q", ["a", "b"], 0⟩], []⟩ "P1" (some "q2")
        ["x", "y"]).1.error = none := rfl

/-- C2 (amended): for distinct identities `A ≠ B` and a poll owned by
`A` (with poll ids unique in the store), a caller `B` never receives the
poll's data and never modifies or deletes `A`'s row: `getPollById`
returns the no-row error with no data, while `updatePoll` (under any
faults) and `deletePoll` leave the store unchanged — but the zero-row
update and delete are reported as success, not as NotFound. -/
theorem C2_amended (ctx : Ctx) (f : Faults) (db : DB) (uA uB : User)
    (pollA : Poll) (q : Option String) (opts : List String)
    (hu : ctx.user = some uB)
    (hA : pollA ∈ db.polls) (hown : pollA.user_id = uA.id)
    (hAB : uA.id ≠ uB.id)
    (huniq : ∀ p ∈ db.polls, p.id = pollA.id → p = pollA) :
    getPollById ctx noFaults db pollA.id = ⟨none, some pgrstNoRow.message⟩ ∧
    (updatePoll ctx f db pollA.id q opts).2 = db ∧
    deletePoll ctx noFaults db pollA.id = (⟨none⟩, db) := by
  have hforeign : ∀ p ∈ db.polls, p.id = pollA.id → p.user_id ≠ uB.id := by
    intro p hp hid
    rw [huniq p hp hid, hown]
    exact hAB
  have hnomatch : ∀ p ∈ db.polls, ¬(p.id = pollA.id ∧ p.user_id = uB.id) :=
    fun p hp hc => hforeign p hp hc.1 hc.2
  exact ⟨getPollById_zero_rows ctx db uB pollA.id hu hforeign,
         updatePoll_zero_rows ctx f db uB pollA.id q opts hu hnomatch,
         deletePoll_zero_rows ctx db uB pollA.id hu hnomatch⟩

/-- Witness for `C2_amended`: `U2` against `U1`'s poll `P1`. -/
theorem C2_witness :
    getPollById ⟨true, some "t", some "t", some ⟨"U2"⟩, none⟩ noFaults
        ⟨[⟨"P1", "U1", "qq", ["a", "b"], 3⟩], []⟩ "P1" =
      ⟨none, some pgrstNoRow.message⟩ ∧
    (updatePoll ⟨true, some "t", some "t", some ⟨"U2"⟩, none⟩ noFaults
        ⟨[⟨"P1", "U1", "qq", ["a", "b"], 3⟩], []⟩ "P1" (some "q2")
        ["x", "y"]).2 = ⟨[⟨"P1", "U1", "qq", ["a", "b"], 3⟩], []⟩ ∧
    deletePoll ⟨true, some "t", some "t", some ⟨"U2"⟩, none⟩ noFaults
        ⟨[⟨"P1", "U1", "qq", ["a", "b"], 3⟩], []⟩ "P1" =
      (⟨none⟩, ⟨[⟨"P1", "U1", "qq", ["a", "b"], 3⟩], []⟩) :=
  C2_amended ⟨true, some "t", some "t", some ⟨"U2"⟩, none⟩ noFaults
    ⟨[⟨"P1", "U1", "qq", ["a", "b"], 3⟩], []⟩ ⟨"U1"⟩ ⟨"U2"⟩
    ⟨"P1", "U1", "qq", ["a", "b"], 3⟩ (some "q2") ["x", "y"]
    rfl (by decide) rfl (by decide) (by decide)

/-! ### C3: anti-enumeration on getPollById -/

/-- C3: whenever no poll with the requested id is owned by the caller —
whether the id matches no row at all or only rows owned by someone
else — `getPollById` returns the one fixed value `⟨none, some
pgrstNoRow.message⟩`, so a nonexistent id and an existent-but-foreign id
produce indistinguishable results. -/
theorem C3_theorem (ctx : Ctx) (db : DB) (u : User) (id : String)
    (hu : ctx.user = some u)
    (h : ∀ p ∈ db.polls, p.id = id → p.user_id ≠ u.id) :
    getPollById ctx noFaults db id = ⟨none, some pgrstNoRow.message⟩ :=
  getPollById_zero_rows ctx db u id hu h

/-- Witness for `C3_theorem`: the two runs — id `P1` absent, and id `P1`
present but owned by `U1` while `U2` calls — both evaluate to the same
result. -/
theorem C3_witness :
    getPollById ⟨true, none, none, some ⟨"U2"⟩, none⟩ noFaults ⟨[], []⟩ "P1" =
      ⟨none, some pgrstNoRow.message⟩ ∧
    getPollById ⟨true, none, none, some ⟨"U2"⟩, none⟩ noFaults
        ⟨[⟨"P1", "U1", "q", ["a", "b"], 0⟩], []⟩ "P1" =
      ⟨none, some pgrstNoRow.message⟩ :=
  ⟨C3_theorem ⟨true, none, none, some ⟨"U2"⟩, none⟩ ⟨[], []⟩ ⟨"U2"⟩ "P1"
      rfl (by decide),
   C3_theorem ⟨true, none, none, some ⟨"U2"⟩, none⟩
      ⟨[⟨"P1", "U1", "q", ["a", "b"], 0⟩], []⟩ ⟨"U2"⟩ "P1"
      rfl (by decide)⟩

/-! ### C4: zero-row delete reporting -/

/-- C4 (counterexample): `deletePoll` on an id matching zero rows (here:
an empty store) returns a success acknowledgment (`error = null`), not a
NotFound error. -/
theorem C4_counterexample :
    deletePoll ⟨true, none, none, some ⟨"U1"⟩, none⟩ noFaults ⟨[], []⟩
        "NOPE" = (⟨none⟩, ⟨[], []⟩) := rfl

/-- C4 (amended): for every authenticated identity, `deletePoll` on a
pollId matching zero rows under the combined id+owner predicate deletes
nothing and returns a success acknowledgment (`error = null`), not a
NotFound error. -/
theorem C4_amended (ctx : Ctx) (db : DB) (u : User) (id : String)
    (hu : ctx.user = some u)
    (h : ∀ p ∈ db.polls, ¬(p.id = id ∧ p.user_id = u.id)) :
    deletePoll ctx noFaults db id = (⟨none⟩, db) :=
  deletePoll_zero_rows ctx db u id hu h

/-- Witness for `C4_amended`: `U2` deleting `U1`'s poll matches zero
rows, deletes nothing, and is acknowledged as success. -/
theorem C4_witness :
    deletePoll ⟨true, none, none, some ⟨"U2"⟩, none⟩ noFaults
        ⟨[⟨"P1", "U1", "q", ["a", "b"], 0⟩], []⟩ "P1" =
      (⟨none⟩, ⟨[⟨"P1", "U1", "q", ["a", "b"], 0⟩], []⟩) :=
  C4_amended ⟨true, none, none, some ⟨"U2"⟩, none⟩
    ⟨[⟨"P1", "U1", "q", ["a", "b"], 0⟩], []⟩ ⟨"U2"⟩ "P1" rfl (by decide)

/-! ### C5: creation validation -/

/-- C5 (counterexample): an options list containing an empty entry does
not cause a ValidationError — `filter(Boolean)` silently drops the empty
entry and the poll is created from the remaining two options. -/
theorem C5_counterexample :
    createPoll ⟨true, some "t", some "t", some ⟨"U1"⟩, none⟩ noFaults ⟨[], []⟩
        "P1" 0 (some "q") ["a", "b", ""] =
      (⟨none⟩, ⟨[⟨"P1", "U1", "q", ["a", "b"], 0⟩], []⟩) := rfl

/-- C5 (amended): under a passing CSRF check, `createPoll` drops empty
option entries before validating; it returns the validation error
exactly when the question is missing/empty or fewer than two non-empty
options remain, and with a non-empty question, at least two non-empty
options, an authenticated caller, and no backend fault it persists a new
poll whose owner is the calling identity. -/
theorem C5_amended (ctx : Ctx) (db : DB) (newId : String) (now : Nat)
    (q : String) (opts : List String) (u : User)
    (hcsrf : csrfCheck ctx = none) (hu : ctx.user = some u)
    (hue : ctx.userErr = none) :
    ((q = "" ∨ (opts.filter (fun s => s ≠ "")).length < 2) →
      createPoll ctx noFaults db newId now (some q) opts =
        (⟨some "Please provide a question and at least two options."⟩, db)) ∧
    (q ≠ "" → 2 ≤ (opts.filter (fun s => s ≠ "")).length →
      createPoll ctx noFaults db newId now (some q) opts =
        (⟨none⟩,
         ⟨db.polls ++ [⟨newId, u.id, q, opts.filter (fun s => s ≠ ""), now⟩],
          db.votes⟩)) ∧
    createPoll ctx noFaults db newId now none opts =
      (⟨some "Please provide a question and at least two options."⟩, db) := by
  refine ⟨?_, ?_, ?_⟩
  · intro hval
    simp only [createPoll, hcsrf]
    rw [if_pos]
    rcases hval with h | h
    · subst h; simp [truthy]
    · simp
      exact Or.inr (by simpa using h)
  · intro hq hlen
    simp only [createPoll, hcsrf]
    rw [if_neg]
    · rw [hue, hu]
      simp [noFaults]
    · intro hcond
      rw [Bool.or_eq_true] at hcond
      rcases hcond with h | h
      · rw [Bool.not_eq_true'] at h
        simp [truthy, hq] at h
      · rw [decide_eq_true_iff] at h
        exact absurd h (Nat.not_lt.mpr hlen)
  · simp only [createPoll, hcsrf]
    rw [if_pos]
    simp [truthy]

/-- Witness for `C5_amended`: `U1` creates a poll with question `q` and
options `[a, b]`; the stored poll's owner is `U1`. -/
theorem C5_witness :
    createPoll ⟨true, some "t", some "t", some ⟨"U1"⟩, none⟩ noFaults ⟨[], []⟩
        "P1" 7 (some "q") ["a", "b"] =
      (⟨none⟩, ⟨[⟨"P1", "U1", "q", ["a", "b"], 7⟩], []⟩) :=
  (C5_amended ⟨true, some "t", some "t", some ⟨"U1"⟩, none⟩ ⟨[], []⟩ "P1" 7
      "q" ["a", "b"] ⟨"U1"⟩ rfl rfl rfl).2.1 (by decide) (by decide)

/-! ### C6: vote bounds -/

/-- C6: with an authenticated caller and a poll whose id matches exactly
one row, `submitVote` rejects any `optionIndex` below `0` or at/above
the number of options with the invalid-option error and no inserted
vote, and it can only succeed when `0 ≤ optionIndex < options.length`. -/
theorem C6_theorem (ctx : Ctx) (db : DB) (u : User) (pollId : String)
    (poll : Poll) (idx : Int)
    (hu : ctx.user = some u)
    (hpoll : selectById db.polls pollId = [poll]) :
    ((idx < 0 ∨ idx ≥ (poll.options.length : Int)) →
      submitVote ctx noFaults db pollId idx =
        (⟨some "Invalid option selected."⟩, db)) ∧
    ((submitVote ctx noFaults db pollId idx).1.error = none →
      0 ≤ idx ∧ idx < (poll.options.length : Int)) := by
  constructor
  · intro hbound
    simp only [submitVote, hu, noFaults, hpoll]
    rw [if_pos hbound]
  · intro hsucc
    by_contra hcon
    have hbound : idx < 0 ∨ idx ≥ (poll.options.length : Int) := by
      rcases not_and_or.mp hcon with h | h
      · exact Or.inl (Int.not_le.mp h)
      · exact Or.inr (Int.not_lt.mp h)
    have heq : submitVote ctx noFaults db pollId idx =
        (⟨some "Invalid option selected."⟩, db) := by
      simp only [submitVote, hu, noFaults, hpoll]
      rw [if_pos hbound]
    rw [heq] at hsucc
    exact Option.noConfusion hsucc

/-- Witness for `C6_theorem`: a two-option poll rejects the out-of-range
indices `-1` and `2`. -/
theorem C6_witness :
    submitVote ⟨true, none, none, some ⟨"U2"⟩, none⟩ noFaults
        ⟨[⟨"P1", "U1", "q", ["Cats", "Dogs"], 0⟩], []⟩ "P1" (-1) =
      (⟨some "Invalid option selected."⟩,
       ⟨[⟨"P1", "U1", "q", ["Cats", "Dogs"], 0⟩], []⟩) ∧
    submitVote ⟨true, none, none, some ⟨"U2"⟩, none⟩ noFaults
        ⟨[⟨"P1", "U1", "q", ["Cats", "Dogs"], 0⟩], []⟩ "P1" 2 =
      (⟨some "Invalid option selected."⟩,
       ⟨[⟨"P1", "U1", "q", ["Cats", "Dogs"], 0⟩], []⟩) :=
  ⟨(C6_theorem ⟨true, none, none, some ⟨"U2"⟩, none⟩
      ⟨[⟨"P1", "U1", "q", ["Cats", "Dogs"], 0⟩], []⟩ ⟨"U2"⟩ "P1"
      ⟨"P1", "U1", "q", ["Cats", "Dogs"], 0⟩ (-1) rfl rfl).1 (by decide),
   (C6_theorem ⟨true, none, none, some ⟨"U2"⟩, none⟩
      ⟨[⟨"P1", "U1", "q", ["Cats", "Dogs"], 0⟩], []⟩ ⟨"U2"⟩ "P1"
      ⟨"P1", "U1", "q", ["Cats", "Dogs"], 0⟩ 2 rfl rfl).1 (by decide)⟩

/-! ### C7: vote uniqueness -/

/-- `selectVotes` distributes over append. -/
lemma selectVotes_append (l1 l2 : List Vote) (pid uid : String) :
    selectVotes (l1 ++ l2) pid uid =
      selectVotes l1 pid uid ++ selectVotes l2 pid uid := by
  simp [selectVotes]

/-- A freshly inserted matching vote is matched by `selectVotes`. -/
lemma selectVotes_self_singleton (pid uid : String) (idx : Int) :
    selectVotes [⟨pid, uid, idx⟩] pid uid = [⟨pid, uid, idx⟩] := by
  simp [selectVotes]

/-- C7: starting from a store holding at most one vote for the pair
`(pollId, caller)`, after a first successful `submitVote` a second call
for the same pair (with any in-range option index) fails with the
duplicate-vote error, inserts nothing, and the store still holds exactly
one vote for the pair. -/
theorem C7_theorem (ctx : Ctx) (db db1 : DB) (u : User) (pollId : String)
    (poll : Poll) (idx idx2 : Int)
    (hu : ctx.user = some u)
    (hpoll : selectById db.polls pollId = [poll])
    (hinv : (selectVotes db.votes pollId u.id).length ≤ 1)
    (hb2 : ¬(idx2 < 0 ∨ idx2 ≥ (poll.options.length : Int)))
    (h1 : submitVote ctx noFaults db pollId idx = (⟨none⟩, db1)) :
    submitVote ctx noFaults db1 pollId idx2 =
      (⟨some "You have already voted on this poll."⟩, db1) ∧
    (selectVotes db1.votes pollId u.id).length = 1 := by
  have key : selectVotes db.votes pollId u.id = [] ∧
      db1 = ⟨db.polls, db.votes ++ [⟨pollId, u.id, idx⟩]⟩ := by
    simp only [submitVote, hu, noFaults, hpoll] at h1
    split at h1
    · simp at h1
    · cases hv : selectVotes db.votes pollId u.id with
      | nil =>
        rw [hv] at h1
        simp only [maybeSingleVote] at h1
        rw [Prod.mk.injEq] at h1
        exact ⟨rfl, h1.2.symm⟩
      | cons v vs =>
        cases vs with
        | nil =>
          rw [hv] at h1
          simp [maybeSingleVote] at h1
        | cons v2 vs2 =>
          rw [hv] at hinv
          simp only [List.length_cons] at hinv
          omega
  obtain ⟨hempty, hdb1⟩ := key
  subst hdb1
  have hsel1 : selectVotes (db.votes ++ [⟨pollId, u.id, idx⟩]) pollId u.id =
      [⟨pollId, u.id, idx⟩] := by
    rw [selectVotes_append, hempty, selectVotes_self_singleton,
      List.nil_append]
  constructor
  · simp only [submitVote, hu, noFaults, hpoll]
    rw [if_neg hb2]
    simp [hsel1, maybeSingleVote]
  · simp [hsel1]

/-- Witness for `C7_theorem`: `U2` votes once on `P1` (success), then
votes again and gets the duplicate-vote error with the store unchanged
and exactly one stored vote for the pair. -/
theorem C7_witness :
    submitVote ⟨true, none, none, some ⟨"U2"⟩, none⟩ noFaults
        ⟨[⟨"P1", "U1", "q", ["Cats", "Dogs"], 0⟩], [⟨"P1", "U2", 1⟩]⟩
        "P1" 1 =
      (⟨some "You have already voted on this poll."⟩,
       ⟨[⟨"P1", "U1", "q", ["Cats", "Dogs"], 0⟩], [⟨"P1", "U2", 1⟩]⟩) ∧
    (selectVotes [⟨"P1", "U2", 1⟩] "P1" "U2").length = 1 :=
  C7_theorem ⟨true, none, none, some ⟨"U2"⟩, none⟩
    ⟨[⟨"P1", "U1", "q", ["Cats", "Dogs"], 0⟩], []⟩
    ⟨[⟨"P1", "U1", "q", ["Cats", "Dogs"], 0⟩], [⟨"P1", "U2", 1⟩]⟩
    ⟨"U2"⟩ "P1" ⟨"P1", "U1", "q", ["Cats", "Dogs"], 0⟩ 1 1
    rfl rfl (by decide) (by decide) (by decide)

/-! ### C8: listing owned polls -/

/-- C8 (counterexample): with the identity absent, `getUserPolls`
returns the error `"Not authenticated"` alongside the empty list — an
error result, not a plain success with an empty sequence. -/
theorem C8_counterexample :
    getUserPolls ⟨true, none, none, none, none⟩ noFaults ⟨[], []⟩ =
      ⟨[], some "Not authenticated"⟩ := rfl

/-- C8 (amended): for an authenticated caller, `getUserPolls` succeeds
(`error = null`) and returns exactly the polls owned by the caller,
ordered by `created_at` descending (in particular the empty list, as a
success, when the caller owns nothing); with the identity absent it
instead returns the empty list together with a `"Not authenticated"`
error. -/
theorem C8_amended (ctx : Ctx) (db : DB) (u : User)
    (hu : ctx.user = some u) :
    getUserPolls ctx noFaults db =
      ⟨sortDesc (selectMine db.polls u.id), none⟩ ∧
    List.Sorted createdDescRel (getUserPolls ctx noFaults db).polls ∧
    (∀ p, p ∈ (getUserPolls ctx noFaults db).polls ↔
      p ∈ db.polls ∧ p.user_id = u.id) := by
  have hres : getUserPolls ctx noFaults db =
      ⟨sortDesc (selectMine db.polls u.id), none⟩ := by
    simp [getUserPolls, hu, noFaults]
  refine ⟨hres, ?_, ?_⟩
  · rw [hres]
    exact List.sorted_insertionSort createdDescRel _
  · intro p
    rw [hres]
    show p ∈ sortDesc (selectMine db.polls u.id) ↔ _
    rw [sortDesc,
      (List.perm_insertionSort createdDescRel (selectMine db.polls u.id)).mem_iff]
    simp [selectMine, List.mem_filter]

/-- Witness for `C8_amended`: `U1` owns polls created at times 1 and 5;
the listing returns them newest-first and omits `U2`'s poll. -/
theorem C8_witness :
    getUserPolls ⟨true, none, none, some ⟨"U1"⟩, none⟩ noFaults
        ⟨[⟨"A", "U1", "q1", ["a", "b"], 1⟩, ⟨"B", "U2", "q2", ["c", "d"], 9⟩,
          ⟨"C", "U1", "q3", ["e", "f"], 5⟩], []⟩ =
      ⟨[⟨"C", "U1", "q3", ["e", "f"], 5⟩, ⟨"A", "U1", "q1", ["a", "b"], 1⟩],
       none⟩ :=
  ((C8_amended ⟨true, none, none, some ⟨"U1"⟩, none⟩
      ⟨[⟨"A", "U1", "q1", ["a", "b"], 1⟩, ⟨"B", "U2", "q2", ["c", "d"], 9⟩,
        ⟨"C", "U1", "q3", ["e", "f"], 5⟩], []⟩ ⟨"U1"⟩ rfl).1).trans
    (by decide)

/-! ### C9: raw backend error text forwarding -/

/-- C9 (counterexample): a storage-layer insert failure's raw message is
returned to the caller verbatim by `createPoll`, contradicting the rule
that backend error text is never forwarded. -/
theorem C9_counterexample :
    (createPoll ⟨true, some "t", some "t", some ⟨"U1"⟩, none⟩
        ⟨some ⟨"relation polls does not exist", "42P01"⟩, none, none, none,
         none, none⟩
        ⟨[], []⟩ "P1" 0 (some "q") ["a", "b"]).1.error =
      some "relation polls does not exist" := rfl

/-- C9 (amended): every operation forwards the raw backend error message
verbatim: for any backend error `e` reached on the operation's storage
call (or on identity resolution, for `createPoll`), the result's error
field is exactly `e.message`, not a generic message. -/
theorem C9_amended (ca : Bool) (cc cf : Option String) (db : DB)
    (e : SbError) (u : User) (newId pollId : String) (now : Nat)
    (q : String) (opts : List String) (idx : Int)
    (hcsrf : csrfCheck ⟨ca, cc, cf, some u, none⟩ = none)
    (hq : q ≠ "")
    (hlen : 2 ≤ (opts.filter (fun s => s ≠ "")).length) :
    (createPoll ⟨ca, cc, cf, some u, none⟩
        ⟨some e, none, none, none, none, none⟩ db newId now (some q)
        opts).1.error = some e.message ∧
    (createPoll ⟨ca, cc, cf, some u, some e⟩ noFaults db newId now (some q)
        opts).1.error = some e.message ∧
    (getUserPolls ⟨ca, cc, cf, some u, none⟩
        ⟨none, some e, none, none, none, none⟩ db).error = some e.message ∧
    (getPollById ⟨ca, cc, cf, some u, none⟩
        ⟨none, some e, none, none, none, none⟩ db pollId).error =
      some e.message ∧
    (submitVote ⟨ca, cc, cf, some u, none⟩
        ⟨none, some e, none, none, none, none⟩ db pollId idx).1.error =
      some e.message ∧
    (deletePoll ⟨ca, cc, cf, some u, none⟩
        ⟨none, none, none, some e, none, none⟩ db pollId).1.error =
      some e.message ∧
    (updatePoll ⟨ca, cc, cf, some u, none⟩
        ⟨none, none, some e, none, none, none⟩ db pollId (some q)
        opts).1.error = some e.message := by
  have hcsrf2 : csrfCheck ⟨ca, cc, cf, some u, some e⟩ = none := hcsrf
  refine ⟨?_, ?_, ?_, ?_, ?_, ?_, ?_⟩
  · simp only [createPoll, hcsrf]
    rw [if_neg]
    intro hcond
    rw [Bool.or_eq_true] at hcond
    rcases hcond with h | h
    · rw [Bool.not_eq_true'] at h
      simp [truthy, hq] at h
    · rw [decide_eq_true_iff] at h
      exact absurd h (Nat.not_lt.mpr hlen)
  · simp only [createPoll, hcsrf2]
    rw [if_neg]
    intro hcond
    rw [Bool.or_eq_true] at hcond
    rcases hcond with h | h
    · rw [Bool.not_eq_true'] at h
      simp [truthy, hq] at h
    · rw [decide_eq_true_iff] at h
      exact absurd h (Nat.not_lt.mpr hlen)
  · simp [getUserPolls]
  · simp [getPollById]
  · simp [submitVote]
  · simp [deletePoll]
  · simp only [updatePoll, hcsrf]
    rw [if_neg]
    intro hcond
    rw [Bool.or_eq_true] at hcond
    rcases hcond with h | h
    · rw [Bool.not_eq_true'] at h
      simp [truthy, hq] at h
    · rw [decide_eq_true_iff] at h
      exact absurd h (Nat.not_lt.mpr hlen)

/-- Witness for `C9_amended`: a concrete backend failure message is
echoed verbatim by all six operations. -/
theorem C9_witness :
    (createPoll ⟨true, some "t", some "t", some ⟨"U1"⟩, none⟩
        ⟨some ⟨"boom", "X"⟩, none, none, none, none, none⟩ ⟨[], []⟩ "P1" 0
        (some "q") ["a", "b"]).1.error = some "boom" ∧
    (createPoll ⟨true, some "t", some "t", some ⟨"U1"⟩, some ⟨"boom", "X"⟩⟩
        noFaults ⟨[], []⟩ "P1" 0 (some "q") ["a", "b"]).1.error =
      some "boom" ∧
    (getUserPolls ⟨true, some "t", some "t", some ⟨"U1"⟩, none⟩
        ⟨none, some ⟨"boom", "X"⟩, none, none, none, none⟩ ⟨[], []⟩).error =
      some "boom" ∧
    (getPollById ⟨true, some "t", some "t", some ⟨"U1"⟩, none⟩
        ⟨none, some ⟨"boom", "X"⟩, none, none, none, none⟩ ⟨[], []⟩
        "P1").error = some "boom" ∧
    (submitVote ⟨true, some "t", some "t", some ⟨"U1"⟩, none⟩
        ⟨none, some ⟨"boom", "X"⟩, none, none, none, none⟩ ⟨[], []⟩ "P1"
        0).1.error = some "boom" ∧
    (deletePoll ⟨true, some "t", some "t", some ⟨"U1"⟩, none⟩
        ⟨none, none, none, some ⟨"boom", "X"⟩, none, none⟩ ⟨[], []⟩
        "P1").1.error = some "boom" ∧
    (updatePoll ⟨true, some "t", some "t", some ⟨"U1"⟩, none⟩
        ⟨none, none, some ⟨"boom", "X"⟩, none, none, none⟩ ⟨[], []⟩ "P1"
        (some "q") ["a", "b"]).1.error = some "boom" :=
  C9_amended true (some "t") (some "t") ⟨[], []⟩ ⟨"boom", "X"⟩ ⟨"U1"⟩
    "P1" "P1" 0 "q" ["a", "b"] 0 rfl (by decide) (by decide)

/-! ### C10: the PGRST116 special case in the duplicate-vote lookup -/

/-- C10: when the duplicate-vote lookup itself fails, `submitVote`
ignores an error with code `'PGRST116'` (treating it as "no existing
vote") and proceeds to insert the vote, while any other error code
aborts the operation with that error's message and inserts nothing. -/
theorem C10_theorem (ctx : Ctx) (db : DB) (u : User) (pollId : String)
    (poll : Poll) (idx : Int) (e : SbError)
    (hu : ctx.user = some u)
    (hpoll : selectById db.polls pollId = [poll])
    (hb : ¬(idx < 0 ∨ idx ≥ (poll.options.length : Int))) :
    (e.code = "PGRST116" →
      submitVote ctx ⟨none, none, none, none, some e, none⟩ db pollId idx =
        (⟨none⟩, ⟨db.polls, db.votes ++ [⟨pollId, u.id, idx⟩]⟩)) ∧
    (e.code ≠ "PGRST116" →
      submitVote ctx ⟨none, none, none, none, some e, none⟩ db pollId idx =
        (⟨some e.message⟩, db)) := by
  constructor
  · intro hcode
    simp only [submitVote, hu, hpoll]
    rw [if_neg hb]
    simp [hcode]
  · intro hcode
    simp only [submitVote, hu, hpoll]
    rw [if_neg hb]
    simp [hcode]

/-- Witness for `C10_theorem`: with a PGRST116 lookup failure the vote
is inserted; with an `XX000` failure the raw message is returned and no
vote is inserted. -/
theorem C10_witness :
    submitVote ⟨true, none, none, some ⟨"U2"⟩, none⟩
        ⟨none, none, none, none, some ⟨"boom", "PGRST116"⟩, none⟩
        ⟨[⟨"P1", "U1", "q", ["Cats", "Dogs"], 0⟩], []⟩ "P1" 1 =
      (⟨none⟩,
       ⟨[⟨"P1", "U1", "q", ["Cats", "Dogs"], 0⟩], [⟨"P1", "U2", 1⟩]⟩) ∧
    submitVote ⟨true, none, none, some ⟨"U2"⟩, none⟩
        ⟨none, none, none, none, some ⟨"boom", "XX000"⟩, none⟩
        ⟨[⟨"P1", "U1", "q", ["Cats", "Dogs"], 0⟩], []⟩ "P1" 1 =
      (⟨some "boom"⟩, ⟨[⟨"P1", "U1", "q", ["Cats", "Dogs"], 0⟩], []⟩) :=
  ⟨(C10_theorem ⟨true, none, none, some ⟨"U2"⟩, none⟩
      ⟨[⟨"P1", "U1", "q", ["Cats", "Dogs"], 0⟩], []⟩ ⟨"U2"⟩ "P1"
      ⟨"P1", "U1", "q", ["Cats", "Dogs"], 0⟩ 1 ⟨"boom", "PGRST116"⟩
      rfl rfl (by decide)).1 rfl,
   (C10_theorem ⟨true, none, none, some ⟨"U2"⟩, none⟩
      ⟨[⟨"P1", "U1", "q", ["Cats", "Dogs"], 0⟩], []⟩ ⟨"U2"⟩ "P1"
      ⟨"P1", "U1", "q", ["Cats", "Dogs"], 0⟩ 1 ⟨"boom", "XX000"⟩
      rfl rfl (by decide)).2 (by decide)⟩

end Polly
